import Mathlib

/-
Verification of the animated slide-rendering and video-compositing core of
the github-wrapped repository (src/src/generators/animated_video_generator.py),
as a shallow embedding in Lean 4.  Python floats that only ever carry exact
decimal values are modelled as rationals; Python `int()` truncation is modelled
explicitly; fallible asset loading is modelled with `Option`.
-/

namespace GithubWrapped

/-- Python `int()` applied to a real-valued expression truncates toward zero:
floor for non-negative arguments, ceiling for negative ones. -/
def pyint (q : ℚ) : ℤ := if 0 ≤ q then ⌊q⌋ else ⌈q⌉

/-- Embeds `AnimatedVideoGenerator._ease_out_cubic` (animated_video_generator.py
lines 73-75): `1 - pow(1 - t, 3)`. -/
def ease_out_cubic (t : ℚ) : ℚ := 1 - (1 - t) ^ 3

/-- One entry of `RepoStats.top_contributors` (github_collector.py line 177):
a dict with keys "name" and "commits". -/
structure Contributor where
  name : String
  commits : ℕ
deriving Repr, DecidableEq

/-- Embeds the fields of the `RepoStats` dataclass (github_collector.py
lines 10-43) that the animated generator reads.  `commits_by_month` is the
month-name-to-count dict, modelled as an association list; `biggest_prs`
keeps only the PR titles, the sole field the generator reads from it. -/
structure RepoStats where
  repo_name : String
  year : ℤ
  total_commits : ℕ
  total_prs : ℕ
  total_releases : ℕ
  lines_added : ℕ
  lines_deleted : ℕ
  top_contributors : List Contributor
  commits_by_month : List (String × ℕ)
  days_with_commits : ℕ
  biggest_prs : List String
  first_release : String
  last_release : String
  busiest_day : String
  busiest_month : String
  peak_hour : ℕ
  weekend_commits : ℕ
deriving Repr

/-- A moviepy video clip as the core manipulates it: its duration, frame rate,
and the fade-in/fade-out durations applied by the `fadein`/`fadeout` effects
(0 when the effect was never applied).  Fades alter pixel values only and
never the clip duration. -/
structure Clip where
  duration : ℚ
  fps : ℕ
  fadein_dur : ℚ
  fadeout_dur : ℚ
deriving Repr, DecidableEq

/-- `VideoClip(make_frame, duration=d)`: a fresh clip, no fades applied yet. -/
def mkVideoClip (d : ℚ) : Clip := ⟨d, 0, 0, 0⟩

/-- `clip.set_fps(f)`. -/
def set_fps (c : Clip) (f : ℕ) : Clip := ⟨c.duration, f, c.fadein_dur, c.fadeout_dur⟩

/-- `moviepy.video.fx.fadein.fadein(clip, d)`: records the fade-in duration;
the clip duration is unchanged. -/
def fadein (c : Clip) (d : ℚ) : Clip := ⟨c.duration, c.fps, d, c.fadeout_dur⟩

/-- `moviepy.video.fx.fadeout.fadeout(clip, d)`: records the fade-out duration;
the clip duration is unchanged. -/
def fadeout (c : Clip) (d : ℚ) : Clip := ⟨c.duration, c.fps, c.fadein_dur, d⟩

/-- `Config.FPS` (config.py line 18). -/
def config_fps : ℕ := 30

/-- `Config.VIDEO_HEIGHT` (config.py line 17). -/
def video_height : ℕ := 1920

/-- `center_y = self.height // 2` as used in every frame renderer. -/
def center_y : ℤ := (video_height : ℤ) / 2

/-- Embeds `_create_intro_clip` (lines 214-282) at the clip level:
`fadeout(VideoClip(make_frame, duration).set_fps(fps), 0.5)` — note that no
`fadein` is applied to the intro clip. -/
def create_intro_clip (duration : ℚ) : Clip :=
  fadeout (set_fps (mkVideoClip duration) config_fps) (1/2)

/-- Embeds `_create_countup_clip` (lines 284-344) at the clip level:
`fadein(fadeout(clip, 0.5), 0.3)`.  The title/number/subtitle/colors bind only
the frame renderer (embedded separately as `countupValue`/`countupNumeral`). -/
def create_countup_clip (title : String) (number : ℕ) (subtitle : String)
    (color1 : String) (color2 : String) (duration : ℚ) : Clip :=
  fadein (fadeout (set_fps (mkVideoClip duration) config_fps) (1/2)) (3/10)

/-- Embeds `_create_leaderboard_clip` (lines 346-405) at the clip level. -/
def create_leaderboard_clip (duration : ℚ) : Clip :=
  fadein (fadeout (set_fps (mkVideoClip duration) config_fps) (1/2)) (3/10)

/-- Embeds `_create_times_clip` (lines 407-466) at the clip level. -/
def create_times_clip (duration : ℚ) : Clip :=
  fadein (fadeout (set_fps (mkVideoClip duration) config_fps) (1/2)) (3/10)

/-- Embeds `_create_lines_clip` (lines 468-543) at the clip level. -/
def create_lines_clip (duration : ℚ) : Clip :=
  fadein (fadeout (set_fps (mkVideoClip duration) config_fps) (1/2)) (3/10)

/-- Embeds `_create_chart_clip` (lines 545-619) at the clip level. -/
def create_chart_clip (duration : ℚ) : Clip :=
  fadein (fadeout (set_fps (mkVideoClip duration) config_fps) (1/2)) (3/10)

/-- Embeds `_create_outro_clip` (lines 621-691) at the clip level:
`fadein(fadeout(clip, 1.0), 0.3)` — the fade-out lasts 1.0 s here. -/
def create_outro_clip (duration : ℚ) : Clip :=
  fadein (fadeout (set_fps (mkVideoClip duration) config_fps) 1) (3/10)

/-- Embeds `_get_biggest_pr_text` (lines 207-212). -/
def get_biggest_pr_text (s : RepoStats) : String :=
  match s.biggest_prs with
  | [] => ""
  | b :: _ => "Biggest: " ++ (if b.length > 35 then b.take 35 ++ "..." else b)

/-- Embeds the clip list construction of `create_animated_video`
(lines 92-134): the nine clips in canonical order, each built with its
default duration (5, 5, 5, 7, 6, 6, 5, 7, 6 seconds). -/
def buildClips (s : RepoStats) : List Clip :=
  [ create_intro_clip 5,
    create_countup_clip "TOTAL COMMITS" s.total_commits
      ("across " ++ toString s.days_with_commits ++ " different days")
      "#1a1a2e" "#0f0f23" 5,
    create_countup_clip "PULL REQUESTS MERGED" s.total_prs
      (get_biggest_pr_text s) "#0f0f23" "#0f3460" 5,
    create_leaderboard_clip 7,
    create_times_clip 6,
    create_lines_clip 6,
    create_countup_clip "RELEASES SHIPPED" s.total_releases
      (if s.first_release ≠ "" then
        "From " ++ s.first_release ++ " to " ++ s.last_release
       else "") "#16213e" "#1a1a2e" 5,
    create_chart_clip 7,
    create_outro_clip 6 ]

/-- `concatenate_videoclips(clips, method="compose")` produces a video of the
summed duration (line 138). -/
def concatenate_videoclips_duration (cs : List Clip) : ℚ :=
  (cs.map Clip.duration).sum

/-- A moviepy audio clip as the composer manipulates it: absolute start
offset, duration, cumulative gain factor, and the audio fade durations
(0 when never applied). -/
structure AudioTrack where
  start : ℚ
  duration : ℚ
  gain : ℚ
  audio_fadein_dur : ℚ
  audio_fadeout_dur : ℚ
deriving Repr, DecidableEq

/-- `moviepy.audio.fx.volumex.volumex(clip, f)`: multiplies the gain. -/
def volumex (a : AudioTrack) (factor : ℚ) : AudioTrack :=
  ⟨a.start, a.duration, a.gain * factor, a.audio_fadein_dur, a.audio_fadeout_dur⟩

/-- `audio_fadein(clip, d)`: records the audio fade-in duration. -/
def audio_fadein (a : AudioTrack) (d : ℚ) : AudioTrack :=
  ⟨a.start, a.duration, a.gain, d, a.audio_fadeout_dur⟩

/-- `audio_fadeout(clip, d)`: records the audio fade-out duration. -/
def audio_fadeout (a : AudioTrack) (d : ℚ) : AudioTrack :=
  ⟨a.start, a.duration, a.gain, a.audio_fadein_dur, d⟩

/-- Embeds the narration loop of `create_animated_video` (lines 144-153):
`zip(clips, audio_paths)`; a path that is present and loads becomes
`AudioFileClip(path).set_start(current_time + 0.5)` (unit gain, no fades);
an absent or failing path contributes nothing; `current_time` advances by the
clip duration either way.  Each list entry is the duration of the narration
file, `none` when the path is missing or fails to load. -/
def narrationTracks : ℚ → List Clip → List (Option ℚ) → List AudioTrack
  | _, _, [] => []
  | _, [], _ => []
  | current_time, c :: cs, p :: ps =>
    (match p with
     | some d => [⟨current_time + 1/2, d, 1, 0, 0⟩]
     | none => []) ++ narrationTracks (current_time + c.duration) cs ps

/-- `loops_needed = int(final_video.duration / music.duration) + 1`
(line 161). -/
def loops_needed (video_duration music_duration : ℚ) : ℤ :=
  pyint (video_duration / music_duration) + 1

/-- Line 162 applies moviepy's `concatenate_videoclips` to a list of
`AudioFileClip`s.  That function is video-only: it unconditionally reads each
clip's `.size`, an attribute `AudioFileClip` does not have, so the call
raises AttributeError instead of producing a looped clip.  Modelled as
`none`: no clip is ever produced from an audio-clip list. -/
def concatenate_videoclips_on_audio (clips : List AudioTrack) :
    Option AudioTrack :=
  none

/-- Embeds the volume/fade chain of the music block (lines 164-175) applied
to the truncated music clip: `subclip(0, D)` on a clip of length `m ≥ D`
yields length `min m D = D`; then `volumex(music, 0.3)`,
`audio_fadein(music, 2)`, `audio_fadeout(music, 3)`, and
`volumex(music, 0.5)` exactly when at least one narration clip was loaded. -/
def processMusic (music_duration video_duration : ℚ)
    (narration_present : Bool) : AudioTrack :=
  let music : AudioTrack :=
    ⟨0, min music_duration video_duration, 1, 0, 0⟩
  let music := volumex music (3/10)
  let music := audio_fadein music 2
  let music := audio_fadeout music 3
  if narration_present then volumex music (1/2) else music

/-- Embeds the guarded music block, lines 156-177, as a whole.  In the
`m < D` branch the code calls `concatenate_videoclips` on
`[music] * loops_needed` (line 162); that call raises AttributeError (see
`concatenate_videoclips_on_audio`), the `except` at lines 176-177 catches it
and prints a warning, and the music is dropped entirely — the `.map`
continuation (the rest of the `try` body) is never reached.  In the `m ≥ D`
branch `subclip(0, D)` truncates to exactly `D` and the volume/fade chain
runs; the resulting track is attached. -/
def musicBlock (music_duration video_duration : ℚ)
    (narration_present : Bool) : Option AudioTrack :=
  if music_duration < video_duration then
    (concatenate_videoclips_on_audio
        (List.replicate (loops_needed video_duration music_duration).toNat
          ⟨0, music_duration, 1, 0, 0⟩)).map
      (fun _looped => processMusic music_duration video_duration narration_present)
  else
    some (processMusic music_duration video_duration narration_present)

/-- The value `create_animated_video` returns, abstracted to what is
observable: the final duration and the composed audio tracks. -/
structure Video where
  duration : ℚ
  audio : List AudioTrack
deriving Repr

/-- Embeds `create_animated_video` (lines 83-205).  `audio_paths` is the
optional narration list (entry = duration of a loadable file, `none` for a
missing/failing one); `music_path` is the optional music file duration.
`set_audio` attaches the composite audio without changing the video
duration; with no tracks the video is silent. -/
def create_animated_video (s : RepoStats) (audio_paths : Option (List (Option ℚ)))
    (music_path : Option ℚ) : Video :=
  let clips := buildClips s
  let final_duration := concatenate_videoclips_duration clips
  let audio_clips : List AudioTrack :=
    match audio_paths with
    | some ps => narrationTracks 0 clips ps
    | none => []
  let audio_clips :=
    match music_path with
    | some m =>
      match musicBlock m final_duration (!audio_clips.isEmpty) with
      | some music => music :: audio_clips
      | none => audio_clips
    | none => audio_clips
  ⟨final_duration, audio_clips⟩

/-- Embeds the count-up numeral value of `_create_countup_clip.make_frame`
(lines 314-320): `none` when `t ≤ 0.3` (the element is gated by `if t > 0.3`
and is absent); otherwise `int(number * ease_out_cubic(min((t-0.3)/2.0, 1.0)))`. -/
def countupValue (number : ℕ) (t : ℚ) : Option ℤ :=
  if t > 3/10 then
    let count_progress := min ((t - 3/10) / 2) 1
    let eased := ease_out_cubic count_progress
    some (pyint ((number : ℚ) * eased))
  else
    none

/-- Thousands-separated decimal rendering of a natural number, the meaning of
the Python format specification "comma" used in the f-strings: digit groups of
three from the right, separated by commas.  `insertCommasRev` works on the
reversed digit list. -/
def insertCommasRev : List Char → ℕ → List Char
  | [], _ => []
  | c :: cs, 2 => c :: (if cs.isEmpty then [] else ',' :: insertCommasRev cs 0)
  | c :: cs, k => c :: insertCommasRev cs (k + 1)

/-- Python format of a non-negative integer with thousands separators. -/
def commaFmt (n : ℕ) : String :=
  String.mk (insertCommasRev (Nat.repr n).data.reverse 0).reverse

/-- Python format of a signed integer with thousands separators: a leading
minus sign for negative values, no sign otherwise. -/
def commaFmtInt (z : ℤ) : String :=
  if z < 0 then "-" ++ commaFmt z.natAbs else commaFmt z.natAbs

/-- The rendered count-up numeral text `num_text` (line 320):
the current value formatted with thousands separators. -/
def countupNumText (number : ℕ) (t : ℚ) : Option String :=
  (countupValue number t).map commaFmtInt

/-- Embeds the numeral value and vertical draw position of
`_create_countup_clip.make_frame` (lines 314-330).  The sine bounce
displacement of line 327, `math.sin((count_progress - 0.95) * 20 * pi) * 5`,
is floating-point and transcendental; it is abstracted as the parameter
`bounce` (a function of `count_progress`), applied only when
`count_progress > 0.95` and only to the y coordinate. -/
def countupNumeral (number : ℕ) (t : ℚ) (bounce : ℚ → ℚ) : Option (ℤ × ℤ) :=
  if t > 3/10 then
    let count_progress := min ((t - 3/10) / 2) 1
    let eased := ease_out_cubic count_progress
    let current_number := pyint ((number : ℚ) * eased)
    let y0 : ℤ := center_y - 80
    let y : ℤ :=
      if count_progress > 19/20 then y0 + pyint (bounce count_progress) else y0
    some (current_number, y)
  else
    none

/-- `f"+{net:,}" if net >= 0 else f"{net:,}"` with
`net = lines_added - lines_deleted` (`_create_lines_clip`, lines 526-527). -/
def netText (lines_added lines_deleted : ℕ) : String :=
  let net : ℤ := (lines_added : ℤ) - (lines_deleted : ℤ)
  if 0 ≤ net then "+" ++ commaFmtInt net else commaFmtInt net

/-- `medals = ["1st", "2nd", "3rd", "4th", "5th"]` (line 372). -/
def medals : List String := ["1st", "2nd", "3rd", "4th", "5th"]

/-- One rendered leaderboard row (lines 387-399): the left text
`f"{medal}  {name}"` and the right text `f"{commits}"`. -/
structure LeaderboardRow where
  text : String
  commits_text : String
deriving Repr, DecidableEq

/-- Builds the row for contributor index `i` (lines 387-396). -/
def leaderboardRow (i : ℕ) (c : Contributor) : LeaderboardRow :=
  let medal := medals.getD i (toString (i + 1) ++ "th")
  ⟨medal ++ "  " ++ c.name, toString c.commits⟩

/-- Embeds the reveal loop of `_create_leaderboard_clip.make_frame`
(lines 350, 377-399): `contributors = top_contributors[:5]`; row `i` is drawn
exactly when `t > 0.8 + i * 0.5`, in list order. -/
def leaderboardRows (top_contributors : List Contributor) (t : ℚ) :
    List LeaderboardRow :=
  let contributors := top_contributors.take 5
  (contributors.enum.filter
      (fun p => t > 4/5 + (p.1 : ℚ) * (1/2))).map
    (fun p => leaderboardRow p.1 p.2)

/-- `month_full` (lines 551-552). -/
def month_full : List String :=
  ["January", "February", "March", "April", "May", "June",
   "July", "August", "September", "October", "November", "December"]

/-- Python `dict.get(k, 0)` on the association-list model of a dict. -/
def dict_get (d : List (String × ℕ)) (k : String) : ℕ :=
  match d.find? (fun p => p.1 == k) with
  | some p => p.2
  | none => 0

/-- `values = [commits_by_month.get(m, 0) for m in month_full]` (line 553). -/
def chartValues (commits_by_month : List (String × ℕ)) : List ℕ :=
  month_full.map (dict_get commits_by_month)

/-- `max_val = max(values) if values else 1` (line 554); for a non-empty list
of naturals Python `max` coincides with `foldl max 0`. -/
def pymaxOrOne (values : List ℕ) : ℕ :=
  if values.isEmpty then 1 else values.foldl max 0

/-- Embeds the bar geometry of `_create_chart_clip.make_frame`
(lines 585-592): `none` when `t ≤ bar_start` (the bar is absent); otherwise
`int((val / max_val) * (chart_height - 80) * eased) if max_val > 0 else 0`
with `chart_height = 800` (line 576) and
`eased = ease_out_cubic(min((t - bar_start) / 1.0, 1.0))`. -/
def chartBarHeight (val max_val : ℕ) (i : ℕ) (t : ℚ) : Option ℤ :=
  let bar_start : ℚ := 1/2 + (i : ℚ) * (3/20)
  if t > bar_start then
    let progress := min ((t - bar_start) / 1) 1
    let eased := ease_out_cubic progress
    some (if max_val > 0 then
            pyint (((val : ℚ) / (max_val : ℚ)) * (800 - 80) * eased)
          else 0)
  else
    none

/-- The height of bar `i` of the chart clip at time `t` for a given stats
record (lines 550-592 end to end); `none` when `i` is out of range or the bar
has not started growing. -/
def chartBarAt (s : RepoStats) (i : ℕ) (t : ℚ) : Option ℤ :=
  match (chartValues s.commits_by_month).get? i with
  | some val => chartBarHeight val (pymaxOrOne (chartValues s.commits_by_month)) i t
  | none => none

/-- A concrete statistics record used to instantiate universally quantified
results on specific inputs. -/
def sampleStats : RepoStats :=
  ⟨"octo/demo-repo", 2024, 1234, 10, 3, 100, 40,
   [⟨"alice", 700⟩, ⟨"bob", 300⟩, ⟨"carol", 234⟩],
   [("January", 5)], 42, ["Add feature"], "v1.0", "v2.0",
   "Friday", "March", 14, 77⟩

/-- A concrete statistics record with an empty month dict: every monthly
value read by the chart clip is 0. -/
def zeroStats : RepoStats :=
  ⟨"octo/empty-repo", 2024, 0, 0, 0, 0, 0, [], [], 0, [], "", "",
   "", "", 0, 0⟩

/-- Monotonicity of the cubic ease-out on inputs bounded above by 1. -/
theorem ease_out_cubic_mono {s t : ℚ} (hst : s ≤ t) (ht : t ≤ 1) :
    ease_out_cubic s ≤ ease_out_cubic t := by
  unfold ease_out_cubic
  have h1 : (0 : ℚ) ≤ 1 - t := by linarith
  have h2 : 1 - t ≤ 1 - s := by linarith
  nlinarith [pow_le_pow_left₀ h1 h2 3]

/-- The cubic ease-out is non-negative on [0, 1]. -/
theorem ease_out_cubic_nonneg {t : ℚ} (h0 : 0 ≤ t) (h1 : t ≤ 1) :
    0 ≤ ease_out_cubic t := by
  unfold ease_out_cubic
  nlinarith [sq_nonneg t, sq_nonneg (1 - t)]

/-- The cubic ease-out is at most 1 on inputs at most 1. -/
theorem ease_out_cubic_le_one {t : ℚ} (h1 : t ≤ 1) :
    ease_out_cubic t ≤ 1 := by
  unfold ease_out_cubic
  nlinarith [pow_nonneg (by linarith : (0 : ℚ) ≤ 1 - t) 3]

/-- Python truncation of a non-negative value is non-negative. -/
theorem pyint_nonneg {q : ℚ} (h : 0 ≤ q) : 0 ≤ pyint q := by
  unfold pyint
  rw [if_pos h]
  exact Int.floor_nonneg.mpr h

/-- Python truncation is monotone on non-negative values. -/
theorem pyint_mono {x y : ℚ} (hx : 0 ≤ x) (hxy : x ≤ y) :
    pyint x ≤ pyint y := by
  unfold pyint
  rw [if_pos hx, if_pos (hx.trans hxy)]
  exact Int.floor_le_floor hxy

/-- Python truncation of a non-negative value bounded by a natural number N
is bounded by N. -/
theorem pyint_le_nat {q : ℚ} (N : ℕ) (h0 : 0 ≤ q) (h : q ≤ (N : ℚ)) :
    pyint q ≤ (N : ℤ) := by
  unfold pyint
  rw [if_pos h0]
  calc ⌊q⌋ ≤ ⌊(N : ℚ)⌋ := Int.floor_le_floor h
    _ = (N : ℤ) := Int.floor_natCast N

/-- C9: `ease_out_cubic` maps 0 to 0 and 1 to 1, and is monotonically
non-decreasing on the interval [0, 1]. -/
theorem c9_ease_out_cubic_boundary_and_mono :
    ease_out_cubic 0 = 0 ∧ ease_out_cubic 1 = 1 ∧
    ∀ s t : ℚ, 0 ≤ s → s ≤ t → t ≤ 1 → ease_out_cubic s ≤ ease_out_cubic t := by
  refine ⟨by norm_num [ease_out_cubic], by norm_num [ease_out_cubic], ?_⟩
  intro s t _ hst ht
  exact ease_out_cubic_mono hst ht

/-- Witness for C9: monotonicity instantiated at s = 0, t = 1/2. -/
theorem c9_witness : ease_out_cubic 0 ≤ ease_out_cubic (1/2) :=
  c9_ease_out_cubic_boundary_and_mono.2.2 0 (1/2) (by norm_num) (by norm_num)
    (by norm_num)

/-- C1: for every statistics record and every combination of optional
narration list and optional music path, the produced video's duration equals
the sum of the 9 canonical clip durations, 5+5+5+7+6+6+5+7+6 = 52 seconds;
attaching or omitting audio never changes it. -/
theorem c1_total_duration (s : RepoStats) (audio_paths : Option (List (Option ℚ)))
    (music_path : Option ℚ) :
    (create_animated_video s audio_paths music_path).duration =
      concatenate_videoclips_duration (buildClips s) ∧
    (create_animated_video s audio_paths music_path).duration = 52 := by
  constructor
  · cases audio_paths <;> cases music_path <;> rfl
  · cases audio_paths <;> cases music_path <;>
      norm_num [create_animated_video, buildClips, concatenate_videoclips_duration,
        create_intro_clip, create_countup_clip, create_leaderboard_clip,
        create_times_clip, create_lines_clip, create_chart_clip, create_outro_clip,
        mkVideoClip, set_fps, fadein, fadeout]

/-- C3 counterexample: the first of the 9 clips, the intro, is built by
`fadeout(clip, 0.5)` with no `fadein` call at all, so its fade-in duration is
0, not approximately 0.3 seconds. -/
theorem c3_counterexample :
    ((buildClips sampleStats).map Clip.fadein_dur).head? = some 0 ∧
    (0 : ℚ) ≠ 3/10 := by
  constructor
  · simp [buildClips, create_intro_clip, mkVideoClip, set_fps, fadeout]
  · norm_num

/-- C3 amended: of the 9 clips, the 8 non-intro clips get a fade-in of 0.3 s
and the intro gets none (0); every clip gets a fade-out of 0.5 s except the
outro, whose fade-out is 1.0 s. -/
theorem c3_amended_fades (s : RepoStats) :
    (buildClips s).map (fun c => (c.fadein_dur, c.fadeout_dur)) =
      [(0, 1/2), (3/10, 1/2), (3/10, 1/2), (3/10, 1/2), (3/10, 1/2),
       (3/10, 1/2), (3/10, 1/2), (3/10, 1/2), (3/10, 1)] := by
  simp [buildClips, create_intro_clip, create_countup_clip,
    create_leaderboard_clip, create_times_clip, create_lines_clip,
    create_chart_clip, create_outro_clip, mkVideoClip, set_fps, fadein, fadeout]

/-- C2 counterexample: at t = a = 0.3 exactly (the code's activation offset),
the count-up element is gated by the strict test `t > 0.3` and is absent from
the frame: no numeral — in particular no numeral equal to 0 — is rendered. -/
theorem c2_counterexample : countupValue 5 (3/10) = none := by
  norm_num [countupValue]

/-- C2 amended: with the code's activation offset a = 0.3 and count-up window
length d = 2.0: at t = a the numeral is absent (the element is gated by the
strict test t > a); at t = a + d it equals exactly N; and on a < s ≤ t the
displayed value is non-decreasing. -/
theorem c2_amended_countup (N : ℕ) :
    countupValue N (3/10) = none ∧
    countupValue N (3/10 + 2) = some (N : ℤ) ∧
    (∀ s t : ℚ, 3/10 < s → s ≤ t → ∀ u v : ℤ,
      countupValue N s = some u → countupValue N t = some v → u ≤ v) := by
  refine ⟨by norm_num [countupValue], ?_, ?_⟩
  · norm_num [countupValue, ease_out_cubic, pyint, min_def, Int.floor_natCast]
  · intro s t hs hst u v hu hv
    have ht : (3/10 : ℚ) < t := lt_of_lt_of_le hs hst
    rw [countupValue, if_pos hs] at hu
    rw [countupValue, if_pos ht] at hv
    injection hu with hu
    injection hv with hv
    subst hu; subst hv
    have hps : (0 : ℚ) < min ((s - 3/10) / 2) 1 :=
      lt_min (by linarith) one_pos
    have hps1 : min ((s - 3/10) / 2) 1 ≤ 1 := min_le_right _ _
    have hpt1 : min ((t - 3/10) / 2) 1 ≤ 1 := min_le_right _ _
    have hpspt : min ((s - 3/10) / 2) 1 ≤ min ((t - 3/10) / 2) 1 :=
      min_le_min (by linarith) le_rfl
    have he : ease_out_cubic (min ((s - 3/10) / 2) 1) ≤
        ease_out_cubic (min ((t - 3/10) / 2) 1) :=
      ease_out_cubic_mono hpspt hpt1
    have he0 : 0 ≤ ease_out_cubic (min ((s - 3/10) / 2) 1) :=
      ease_out_cubic_nonneg (le_of_lt hps) hps1
    exact pyint_mono (mul_nonneg (Nat.cast_nonneg N) he0)
      (mul_le_mul_of_nonneg_left he (Nat.cast_nonneg N))

/-- Witness for C2 (amended): with N = 7 the displayed value at s = 1 is 5 and
at t = 2 is 6, and the theorem yields 5 ≤ 6. -/
theorem c2_witness : (5 : ℤ) ≤ 6 :=
  (c2_amended_countup 7).2.2 1 2 (by norm_num) (by norm_num) 5 6
    (by norm_num [countupValue, ease_out_cubic, pyint, min_def])
    (by norm_num [countupValue, ease_out_cubic, pyint, min_def])

/-- C10: for every target N and frame time t in [0, 5] (the clip duration),
the displayed count-up value, when the numeral is drawn, lies in [0, N]; and
the bounce displacement influences only the y coordinate — the first
component of the rendered numeral is identical for every bounce function, so
the displayed number never overshoots the target. -/
theorem c10_countup_value_in_range (N : ℕ) (t : ℚ) (bounce : ℚ → ℚ)
    (h0 : 0 ≤ t) (h5 : t ≤ 5) :
    (∀ v y : ℤ, countupNumeral N t bounce = some (v, y) →
      0 ≤ v ∧ v ≤ (N : ℤ)) ∧
    ∀ bounce2 : ℚ → ℚ,
      (countupNumeral N t bounce).map Prod.fst =
        (countupNumeral N t bounce2).map Prod.fst := by
  constructor
  · intro v y hvy
    by_cases hg : t > 3/10
    · rw [countupNumeral, if_pos hg] at hvy
      simp only [Option.some.injEq, Prod.mk.injEq] at hvy
      obtain ⟨hv, _⟩ := hvy
      subst hv
      have hps : (0 : ℚ) < min ((t - 3/10) / 2) 1 := lt_min (by linarith) one_pos
      have hps1 : min ((t - 3/10) / 2) 1 ≤ 1 := min_le_right _ _
      have he0 : 0 ≤ ease_out_cubic (min ((t - 3/10) / 2) 1) :=
        ease_out_cubic_nonneg (le_of_lt hps) hps1
      have he1 : ease_out_cubic (min ((t - 3/10) / 2) 1) ≤ 1 :=
        ease_out_cubic_le_one hps1
      constructor
      · exact pyint_nonneg (mul_nonneg (Nat.cast_nonneg N) he0)
      · refine pyint_le_nat N (mul_nonneg (Nat.cast_nonneg N) he0) ?_
        nlinarith [Nat.cast_nonneg (α := ℚ) N]
    · rw [countupNumeral, if_neg hg] at hvy
      exact absurd hvy (by simp)
  · intro b2
    by_cases hg : t > 3/10
    · rw [countupNumeral, countupNumeral, if_pos hg, if_pos hg]
      rfl
    · rw [countupNumeral, countupNumeral, if_neg hg, if_neg hg]

/-- Witness for C10: at N = 7, t = 1, constant-zero bounce, the numeral is
(5, 880) and the theorem yields 0 ≤ 5 and 5 ≤ 7. -/
theorem c10_witness : (0 : ℤ) ≤ 5 ∧ (5 : ℤ) ≤ ((7 : ℕ) : ℤ) :=
  (c10_countup_value_in_range 7 1 (fun _ => 0) (by norm_num) (by norm_num)).1 5 880
    (by norm_num [countupNumeral, ease_out_cubic, pyint, min_def, center_y,
      video_height])

/-- C4 counterexample: the leaderboard renders a commit count with a plain
str() conversion and no thousands separators: 1234 is drawn as "1234",
while comma formatting would give "1,234". -/
theorem c4_counterexample :
    leaderboardRows [⟨"alice", 1234⟩] 1 = [⟨"1st  alice", "1234"⟩] ∧
    commaFmt 1234 = "1,234" ∧ ("1234" : String) ≠ "1,234" := by
  refine ⟨?_, by decide, by decide⟩
  norm_num [leaderboardRows, leaderboardRow, medals, List.filter]
  exact ⟨rfl, rfl⟩

/-- C4 amended: the count-up numerals are comma-formatted and the net
lines-changed delta carries a leading plus sign exactly when it is
non-negative, but not every rendered integer gets thousands separators: the
leaderboard commit counts are plain decimal strings. -/
theorem c4_amended_formatting :
    (∀ la ld : ℕ,
      ((netText la ld).data.head? = some '+' ↔ 0 ≤ (la : ℤ) - (ld : ℤ))) ∧
    (∀ (N : ℕ) (t : ℚ), countupNumText N t = (countupValue N t).map commaFmtInt) ∧
    (∀ (i : ℕ) (c : Contributor),
      (leaderboardRow i c).commits_text = Nat.repr c.commits) := by
  refine ⟨?_, fun N t => rfl, fun i c => rfl⟩
  intro la ld
  unfold netText
  by_cases h : (0 : ℤ) ≤ (la : ℤ) - (ld : ℤ)
  · rw [if_pos h]
    simp only [String.data_append]
    simp [h]
  · rw [if_neg h]
    unfold commaFmtInt
    rw [if_pos (by omega : (la : ℤ) - (ld : ℤ) < 0)]
    simp only [String.data_append]
    simp [h]

/-- Folding max from 0 over a list of zeros gives 0. -/
theorem foldl_max_zero (l : List ℕ) (h : ∀ v ∈ l, v = 0) :
    l.foldl max 0 = 0 := by
  induction l with
  | nil => rfl
  | cons x xs ih =>
    have hx := h x (by simp)
    have hxs : ∀ v ∈ xs, v = 0 := fun v hv => h v (by simp [hv])
    simp [List.foldl_cons, hx]
    exact ih hxs

/-- C5: for a statistics record whose 12 monthly values are all 0, every bar
that the chart clip draws, at every frame time and index, has height exactly
0: the maximum is 0 and the division is short-circuited, so no arithmetic
failure occurs. -/
theorem c5_all_zero_chart (s : RepoStats)
    (h : ∀ v ∈ chartValues s.commits_by_month, v = 0) :
    ∀ (i : ℕ) (t : ℚ) (hgt : ℤ), chartBarAt s i t = some hgt → hgt = 0 := by
  intro i t hgt hbar
  have hne : (chartValues s.commits_by_month).isEmpty = false := by
    unfold chartValues month_full
    rfl
  have hmax : pymaxOrOne (chartValues s.commits_by_month) = 0 := by
    unfold pymaxOrOne
    rw [hne]
    simp only [Bool.false_eq_true, if_false]
    exact foldl_max_zero _ h
  unfold chartBarAt at hbar
  rw [hmax] at hbar
  split at hbar
  · unfold chartBarHeight at hbar
    by_cases hg : t > 1/2 + (i : ℚ) * (3/20)
    · rw [if_pos hg] at hbar
      simp at hbar
      omega
    · rw [if_neg hg] at hbar
      exact absurd hbar (by simp)
  · exact absurd hbar (by simp)

/-- Witness for C5: the all-zero record `zeroStats` at bar 0, time 1
renders height 0. -/
theorem c5_witness : (0 : ℤ) = 0 :=
  c5_all_zero_chart zeroStats (by decide) 0 1 0
    (by norm_num [chartBarAt, zeroStats, chartValues, month_full, dict_get,
      pymaxOrOne, chartBarHeight])

/-- C6: the claimed loop-and-truncate behaviour for short music does not
happen in the code.  At the failing input — a 20-second music file against
the 52-second video — the loop branch hands `AudioFileClip`s to the
video-only `concatenate_videoclips` (line 162), which raises AttributeError;
the `except` at lines 176-177 drops the music, so the music block yields no
track at all, and end to end the video is produced with no audio.  Only the
other branch behaves as claimed: music at least as long as the video (here
60 s) is truncated to exactly the 52-second video duration. -/
theorem c6_music_dropped_not_looped :
    musicBlock 20 52 false = none ∧
    (create_animated_video sampleStats none (some 20)).audio = [] ∧
    (musicBlock 60 52 false).map AudioTrack.duration = some 52 := by
  refine ⟨?_, ?_, ?_⟩
  · norm_num [musicBlock, concatenate_videoclips_on_audio]
  · norm_num [create_animated_video, musicBlock, concatenate_videoclips_on_audio,
      narrationTracks, buildClips, concatenate_videoclips_duration,
      create_intro_clip, create_countup_clip, create_leaderboard_clip,
      create_times_clip, create_lines_clip, create_chart_clip,
      create_outro_clip, mkVideoClip, set_fps, fadein, fadeout]
  · norm_num [musicBlock, processMusic, volumex, audio_fadein, audio_fadeout,
      min_def]

/-- C7: the processed music gain is 30% of the original without narration and
15% (50% of 30%) with narration present, with a 2-second audio fade-in and a
3-second audio fade-out; narration tracks keep unit gain and carry no audio
fades. -/
theorem c7_ducking_and_fades :
    (∀ (m D : ℚ) (np : Bool),
      (processMusic m D np).gain = (if np then 3/20 else 3/10) ∧
      (processMusic m D np).audio_fadein_dur = 2 ∧
      (processMusic m D np).audio_fadeout_dur = 3) ∧
    (∀ (ct : ℚ) (cs : List Clip) (ps : List (Option ℚ)),
      ∀ a ∈ narrationTracks ct cs ps,
        a.gain = 1 ∧ a.audio_fadein_dur = 0 ∧ a.audio_fadeout_dur = 0) := by
  constructor
  · intro m D np
    cases np <;>
      norm_num [processMusic, volumex, audio_fadein, audio_fadeout]
  · intro ct cs ps
    induction cs generalizing ct ps with
    | nil =>
      intro a ha
      cases ps <;> simp [narrationTracks] at ha
    | cons c cs ih =>
      intro a ha
      cases ps with
      | nil => simp [narrationTracks] at ha
      | cons p ps =>
        cases p with
        | none =>
          simp [narrationTracks] at ha
          exact ih _ _ a ha
        | some d =>
          simp [narrationTracks] at ha
          rcases ha with hEq | hMem
          · subst hEq; exact ⟨rfl, rfl, rfl⟩
          · exact ih _ _ a hMem

/-- Witness for C7: a single present narration entry after the intro clip
yields a track with unit gain and zero audio fades. -/
theorem c7_witness : (1 : ℚ) = 1 ∧ (0 : ℚ) = 0 ∧ (0 : ℚ) = 0 :=
  c7_ducking_and_fades.2 0 [create_intro_clip 5] [some 1]
    ⟨0 + 1/2, 1, 1, 0, 0⟩ (by norm_num [narrationTracks])

/-- Evaluation of the leaderboard reveal on a 3-entry contributor list: the
rows present at time t are exactly those whose staggered start (0.8, 1.3,
1.8 seconds) has passed, in list order. -/
theorem leaderboardRows_three_eval (c1 c2 c3 : Contributor) (t : ℚ) :
    leaderboardRows [c1, c2, c3] t =
      (if 4/5 < t then [leaderboardRow 0 c1] else []) ++
      (if 13/10 < t then [leaderboardRow 1 c2] else []) ++
      (if 9/5 < t then [leaderboardRow 2 c3] else []) := by
  by_cases h1 : (4/5 : ℚ) < t <;> by_cases h2 : (13/10 : ℚ) < t <;>
    by_cases h3 : (9/5 : ℚ) < t <;>
    norm_num [leaderboardRows, leaderboardRow, List.filter, h1, h2, h3]

/-- C8: a leaderboard over exactly 3 contributors renders, at every time, at
most 3 rows forming an order-preserving prefix of the 3 contributors' rows —
no placeholder rows for ranks 4 and 5 and no re-sorting — and once every
stagger offset has passed (t > 1.8) exactly the 3 rows in given order. -/
theorem c8_leaderboard_three (c1 c2 c3 : Contributor) (t : ℚ) :
    (∃ k ≤ 3, leaderboardRows [c1, c2, c3] t =
      ([leaderboardRow 0 c1, leaderboardRow 1 c2, leaderboardRow 2 c3]).take k) ∧
    (9/5 < t → leaderboardRows [c1, c2, c3] t =
      [leaderboardRow 0 c1, leaderboardRow 1 c2, leaderboardRow 2 c3]) := by
  constructor
  · rcases lt_or_le (4/5 : ℚ) t with h1 | h1
    · rcases lt_or_le (13/10 : ℚ) t with h2 | h2
      · rcases lt_or_le (9/5 : ℚ) t with h3 | h3
        · exact ⟨3, by norm_num,
            by rw [leaderboardRows_three_eval]; simp [h1, h2, h3]⟩
        · have h3' : ¬ (9/5 : ℚ) < t := not_lt.mpr h3
          exact ⟨2, by norm_num,
            by rw [leaderboardRows_three_eval]; simp [h1, h2, h3']⟩
      · have h2' : ¬ (13/10 : ℚ) < t := not_lt.mpr h2
        have h3' : ¬ (9/5 : ℚ) < t := not_lt.mpr (h2.trans (by norm_num))
        exact ⟨1, by norm_num,
          by rw [leaderboardRows_three_eval]; simp [h1, h2', h3']⟩
    · have h1' : ¬ (4/5 : ℚ) < t := not_lt.mpr h1
      have h2' : ¬ (13/10 : ℚ) < t := not_lt.mpr (h1.trans (by norm_num))
      have h3' : ¬ (9/5 : ℚ) < t := not_lt.mpr (h1.trans (by norm_num))
      exact ⟨0, by norm_num,
        by rw [leaderboardRows_three_eval]; simp [h1', h2', h3']⟩
  · intro h3
    rw [leaderboardRows_three_eval]
    simp [h3, (by linarith : (4/5 : ℚ) < t), (by linarith : (13/10 : ℚ) < t)]

/-- Witness for C8: three contributors at t = 2 render exactly the three rows
in order. -/
theorem c8_witness :
    leaderboardRows [⟨"a", 3⟩, ⟨"b", 2⟩, ⟨"c", 1⟩] 2 =
      [leaderboardRow 0 ⟨"a", 3⟩, leaderboardRow 1 ⟨"b", 2⟩,
       leaderboardRow 2 ⟨"c", 1⟩] :=
  (c8_leaderboard_three ⟨"a", 3⟩ ⟨"b", 2⟩ ⟨"c", 1⟩ 2).2 (by norm_num)

end GithubWrapped
